import Mathlib

/-!
Verification development for the real-time simulation engine (Engine.cpp) of a
space-combat game.  The definitions below are shallow embeddings of the
functions of the source file; theorems check the natural-language design
document against them.
-/

set_option maxHeartbeats 1000000

namespace EndlessSky

namespace Sync

inductive FgPhase where
  | needWait
  | needStep
  | needGo
  deriving DecidableEq, Repr

structure SyncState where
  calcTickTock : Bool
  drawTickTock : Bool
  /-- worker is inside CalculateStep -/
  busy : Bool
  fg : FgPhase
  /-- number of Go() calls so far (the `step` counter of the source) -/
  gos : Nat
  /-- number of completed CalculateStep executions -/
  done : Nat
  deriving DecidableEq, Repr

inductive SyncLabel where
  /-- the while loop of Engine::Wait observes calcTickTock = drawTickTock and returns -/
  | waitReturn
  /-- Engine::Step runs (captures foreground inputs); foreground-only, between Wait and Go -/
  | stepCapture
  /-- Engine::Go: ++step; drawTickTock = !drawTickTock; notify -/
  | go
  /-- the worker passes its condition wait (calcTickTock differs from drawTickTock) and enters CalculateStep -/
  | workerStart
  /-- the worker finishes CalculateStep and sets calcTickTock = drawTickTock -/
  | workerFinish
  deriving DecidableEq, Repr

def syncStep (s : SyncState) : SyncLabel → Option SyncState
  | SyncLabel.waitReturn =>
      if s.fg = FgPhase.needWait ∧ s.calcTickTock = s.drawTickTock then
        some { s with fg := FgPhase.needStep }
      else none
  | SyncLabel.stepCapture =>
      if s.fg = FgPhase.needStep then some { s with fg := FgPhase.needGo } else none
  | SyncLabel.go =>
      if s.fg = FgPhase.needGo then
        some { s with gos := s.gos + 1, drawTickTock := !s.drawTickTock, fg := FgPhase.needWait }
      else none
  | SyncLabel.workerStart =>
      if s.busy = false ∧ s.calcTickTock ≠ s.drawTickTock then
        some { s with busy := true }
      else none
  | SyncLabel.workerFinish =>
      if s.busy = true then
        some { s with busy := false, calcTickTock := s.drawTickTock, done := s.done + 1 }
      else none

/-- The state right after the Engine constructor: worker idle, no frame requested. -/
def initState : SyncState :=
  { calcTickTock := false, drawTickTock := false, busy := false
    fg := FgPhase.needWait, gos := 0, done := 0 }

inductive Reachable : SyncState → Prop where
  | init : Reachable initState
  | next {s t : SyncState} (l : SyncLabel) (hs : Reachable s)
      (hstep : syncStep s l = some t) : Reachable t

/-- The protocol invariant: the worker only ever computes into the slot that is
not being drawn; tick-tock equality means every requested calculation is done;
tick-tock inequality means exactly one calculation is outstanding; the
foreground is between Wait and Go only when no calculation is outstanding. -/
def SyncInv (s : SyncState) : Prop :=
  (s.busy = true → s.calcTickTock ≠ s.drawTickTock) ∧
  (s.calcTickTock = s.drawTickTock → s.done = s.gos) ∧
  (s.calcTickTock ≠ s.drawTickTock → s.done + 1 = s.gos) ∧
  ((s.fg = FgPhase.needStep ∨ s.fg = FgPhase.needGo) → s.calcTickTock = s.drawTickTock)

end Sync

/-- A concrete reachable state: init, Wait, Step, Go, worker start, worker finish. -/
def c1WitnessState : Sync.SyncState :=
  { calcTickTock := true, drawTickTock := true, busy := false
    fg := Sync.FgPhase.needWait, gos := 1, done := 1 }

namespace Pipeline

structure StepPlan where
  /-- new ship ids staged by Ship::Launch when the ship acts in the player's system -/
  launchSpawns : Nat → List Nat
  /-- new projectile ids staged by Ship::Fire -/
  fireSpawns : Nat → List Nat
  /-- new flotsam ids emitted by Ship::Move -/
  shipFlotsamSpawns : Nat → List Nat
  /-- new visual ids emitted by Ship::Move -/
  shipVisualSpawns : Nat → List Nat
  /-- new projectile ids (submunitions) emitted by Projectile::Move -/
  projSpawns : Nat → List Nat
  /-- new visual ids emitted by Projectile::Move -/
  projVisualSpawns : Nat → List Nat
  /-- new visual ids emitted by Flotsam::Move -/
  flotsamVisualSpawns : Nat → List Nat
  /-- ShouldBeRemoved after this step's move, per entity kind -/
  shipRemoved : Nat → Bool
  projRemoved : Nat → Bool
  flotsamRemoved : Nat → Bool
  visualRemoved : Nat → Bool
  /-- ship is in the player's system (at full zoom) after moving -/
  inSystem : Nat → Bool
  /-- ship has a sprite -/
  hasSprite : Nat → Bool
  /-- new ship ids staged by Planet::DeployDefense -/
  defenseSpawns : List Nat
  /-- new ship ids staged by SpawnFleets and SpawnPersons -/
  fleetSpawns : List Nat
  /-- new visual and flotsam ids from AsteroidField::Step -/
  asteroidVisuals : List Nat
  asteroidFlotsam : List Nat

structure World where
  ships : List Nat
  projectiles : List Nat
  flotsam : List Nat
  visuals : List Nat
  grudgeTime : Nat
  deriving DecidableEq, Repr

/-- Ship ids staged while MoveShip processes ship `i`: Launch and Fire run only
if the ship did not just die and is in the player's system. -/
def moveShipShips (plan : StepPlan) (i : Nat) : List Nat :=
  if plan.shipRemoved i then [] else if plan.inSystem i then plan.launchSpawns i else []

/-- Projectile ids staged while MoveShip processes ship `i` (Ship::Fire). -/
def moveShipProjectiles (plan : StepPlan) (i : Nat) : List Nat :=
  if plan.shipRemoved i then [] else if plan.inSystem i then plan.fireSpawns i else []

structure StepTrace where
  /-- ids the move loops iterated (the pre-splice live lists) -/
  movedShips : List Nat
  movedProjectiles : List Nat
  movedFlotsam : List Nat
  movedVisuals : List Nat
  /-- contents of the staging buffers at the merge point -/
  stagedShips : List Nat
  stagedProjectiles : List Nat
  stagedFlotsam : List Nat
  stagedVisuals : List Nat
  /-- ships entered into the collision sets by FillCollisionSets -/
  collisionSetShips : List Nat
  /-- projectiles DoCollisions was run on -/
  collidedProjectiles : List Nat
  /-- flotsam DoCollection was run on -/
  collectionChecked : List Nat
  /-- entities added to this step's draw snapshot -/
  drawnShips : List Nat
  drawnProjectiles : List Nat
  drawnFlotsam : List Nat
  drawnVisuals : List Nat
  world : World

/-- Shallow embedding of the phase order of Engine::CalculateStep. -/
def calculateStep (plan : StepPlan) (w : World) : StepTrace :=
  -- staging buffers at the single merge point, in the order the source fills
  -- them: DeployDefense, the MoveShip loop, AsteroidField::Step, the flotsam
  -- and projectile move loops, SpawnFleets/SpawnPersons
  let stShips := plan.defenseSpawns ++ w.ships.flatMap (moveShipShips plan) ++ plan.fleetSpawns
  let stProjectiles := w.ships.flatMap (moveShipProjectiles plan)
      ++ w.projectiles.flatMap plan.projSpawns
  let stFlotsam := w.ships.flatMap plan.shipFlotsamSpawns ++ plan.asteroidFlotsam
  let stVisuals := w.ships.flatMap plan.shipVisualSpawns ++ plan.asteroidVisuals
      ++ w.flotsam.flatMap plan.flotsamVisualSpawns
      ++ w.projectiles.flatMap plan.projVisualSpawns
  -- Prune removes entities flagged for removal from the live lists
  let shipsPruned := w.ships.filter (fun i => !plan.shipRemoved i)
  let projPruned := w.projectiles.filter (fun i => !plan.projRemoved i)
  let flotsamPruned := w.flotsam.filter (fun i => !plan.flotsamRemoved i)
  let visualsPruned := w.visuals.filter (fun i => !plan.visualRemoved i)
  -- the single merge point: splice every staging buffer onto its live list
  let ships' := shipsPruned ++ stShips
  let projectiles' := projPruned ++ stProjectiles
  let flotsam' := flotsamPruned ++ stFlotsam
  let visuals' := visualsPruned ++ stVisuals
  { movedShips := w.ships
    movedProjectiles := w.projectiles
    movedFlotsam := w.flotsam
    movedVisuals := w.visuals
    stagedShips := stShips
    stagedProjectiles := stProjectiles
    stagedFlotsam := stFlotsam
    stagedVisuals := stVisuals
    -- FillCollisionSets runs after the splice, over the merged ship list
    collisionSetShips := ships'.filter plan.inSystem
    -- DoCollisions runs after the splice, over the merged projectile list
    collidedProjectiles := projectiles'
    -- DoCollection runs after the splice, over the merged flotsam list
    collectionChecked := flotsam'
    -- the draw passes also iterate the merged lists
    drawnShips := ships'.filter (fun i => plan.inSystem i && plan.hasSprite i)
    drawnProjectiles := projectiles'
    drawnFlotsam := flotsam'
    drawnVisuals := visuals'
    world := { ships := ships', projectiles := projectiles', flotsam := flotsam'
               visuals := visuals', grudgeTime := w.grudgeTime - 1 } }

end Pipeline

/-- A one-ship world: ship 1 fires projectile 5 this step, and the spawn
scheduler stages ship 9. -/
def c2Plan : Pipeline.StepPlan :=
  { launchSpawns := fun _ => []
    fireSpawns := fun i => if i = 1 then [5] else []
    shipFlotsamSpawns := fun _ => []
    shipVisualSpawns := fun _ => []
    projSpawns := fun _ => []
    projVisualSpawns := fun _ => []
    flotsamVisualSpawns := fun _ => []
    shipRemoved := fun _ => false
    projRemoved := fun _ => false
    flotsamRemoved := fun _ => false
    visualRemoved := fun _ => false
    inSystem := fun _ => true
    hasSprite := fun _ => true
    defenseSpawns := []
    fleetSpawns := [9]
    asteroidVisuals := []
    asteroidFlotsam := [] }

def c2World : Pipeline.World := ⟨[1], [], [], [], 0⟩

/-! ## Exact rational scalars

The engine's double-precision scalars (positions, radii, travel fractions,
cloak levels) are embedded as exact rationals in an unnormalized
numerator/denominator representation, so that every comparison reduces in the
kernel.  The denominator of `⟨n, d⟩` is `d + 1`, hence always positive. -/
structure Scalar where
  num : Int
  den1 : Nat
  deriving DecidableEq, Repr

namespace Scalar

/-- The (positive) denominator. -/
def den (a : Scalar) : Int := Int.ofNat (a.den1 + 1)

def ofInt (n : Int) : Scalar := ⟨n, 0⟩

def zero : Scalar := ofInt 0

def one : Scalar := ofInt 1

def add (a b : Scalar) : Scalar :=
  ⟨a.num * b.den + b.num * a.den, (a.den1 + 1) * (b.den1 + 1) - 1⟩

def neg (a : Scalar) : Scalar := ⟨-a.num, a.den1⟩

def sub (a b : Scalar) : Scalar := add a (neg b)

def mul (a b : Scalar) : Scalar :=
  ⟨a.num * b.num, (a.den1 + 1) * (b.den1 + 1) - 1⟩

/-- Value comparison `a ≤ b` (denominators are positive). -/
def ble (a b : Scalar) : Bool := a.num * b.den ≤ b.num * a.den

/-- Value comparison `a < b`. -/
def blt (a b : Scalar) : Bool := a.num * b.den < b.num * a.den

/-- Value test against zero (the C++ `if(x)` test on a double). -/
def isZero (a : Scalar) : Bool := a.num == 0

end Scalar

structure Point where
  x : Scalar
  y : Scalar
  deriving DecidableEq, Repr

namespace Point

def add (p q : Point) : Point := ⟨Scalar.add p.x q.x, Scalar.add p.y q.y⟩

def sub (p q : Point) : Point := ⟨Scalar.sub p.x q.x, Scalar.sub p.y q.y⟩

def smul (a : Scalar) (p : Point) : Point := ⟨Scalar.mul a p.x, Scalar.mul a p.y⟩

def distSq (p q : Point) : Scalar :=
  Scalar.add (Scalar.mul (Scalar.sub p.x q.x) (Scalar.sub p.x q.x))
    (Scalar.mul (Scalar.sub p.y q.y) (Scalar.sub p.y q.y))

end Point

namespace Collide

structure Weapon where
  isPhasing : Bool
  isSafe : Bool
  triggerRadius : Scalar
  blastRadius : Scalar
  deriving DecidableEq, Repr

structure Ship where
  uid : Nat
  gov : Nat
  position : Point
  velocity : Point
  system : Nat
  /-- Zoom() == 1. -/
  zoomFull : Bool
  /-- Cloaking() level. -/
  cloak : Scalar
  /-- hit-circle radius used by the collision-set circle query -/
  radius : Scalar
  disabled : Bool
  /-- GetTargetShip(), by uid -/
  targetShip : Option Nat
  shields : Scalar
  hull : Scalar
  cost : Scalar
  isMute : Bool
  isHeroic : Bool
  /-- Ship::CannotAct() -/
  cannotAct : Bool
  /-- Cargo().Free() -/
  cargoFree : Scalar
  deriving DecidableEq, Repr

structure Projectile where
  position : Point
  velocity : Point
  /-- GetGovernment(); absent means the projectile is itself a ship explosion -/
  gov : Option Nat
  /-- Target(): the cached target pointer, by uid -/
  targetCached : Option Nat
  /-- TargetPtr(): the locked weak target reference; none once the referent is gone -/
  targetPtr : Option Ship
  weapon : Weapon
  missileStrength : Nat
  deriving DecidableEq, Repr

/-- External collaborators of Engine::DoCollisions / Engine::DoCollection. -/
structure Env where
  /-- Government::IsEnemy between two governments -/
  isEnemyG : Nat → Nat → Bool
  /-- Mask::Collide of a ship's mask: offset and projectile velocity give the
  fractional travel distance; a value not below 1 means no hit this step -/
  maskCollide : Ship → Point → Point → Scalar
  /-- AsteroidField::Collide: closest asteroid hit below the given bound -/
  asteroidCollide : Projectile → Scalar → Scalar
  /-- Ship::FireAntiMissile: whether the interception attempt succeeds -/
  fireAntiMissile : Ship → Projectile → Bool
  /-- Ship::TakeDamage: resulting event type, 0 for none; the Bool is the
  isBlast flag (ship differs from the directly hit ship) -/
  takeDamage : Ship → Projectile → Bool → Int

/-- A ship's hit-circle intersects the circle of radius `r` around `c`. -/
def hitCircleIntersects (s : Ship) (c : Point) (r : Scalar) : Bool :=
  Scalar.ble (Point.distSq s.position c)
    (Scalar.mul (Scalar.add r s.radius) (Scalar.add r s.radius))

/-- Modelled from the spec: CollisionSet::Circle (CollisionSet.cpp is not part
of the source under verification).  The spec defines the circle query as "all
bodies whose hit-circle intersects a given circle". -/
def circleQuery (set : List Ship) (c : Point) (r : Scalar) : List Ship :=
  set.filter fun s => hitCircleIntersects s c r

/-- Modelled from the spec: CollisionSet::Line (CollisionSet.cpp is not part of
the source under verification).  The spec defines it as: given a projectile's
this-step travel segment, return the first intersecting body and the
fractional travel distance (0 = start, 1 = no hit).  The first intersection
along the segment is the body of minimal mask-collision fraction below the
incoming bound. -/
def lineQuery (env : Env) (set : List Ship) (p : Projectile) (bound : Scalar) :
    Option Ship × Scalar :=
  set.foldl
    (fun acc s =>
      let r := env.maskCollide s (Point.sub p.position s.position) p.velocity
      if Scalar.blt r acc.2 then (some s, r) else acc)
    (none, bound)

/-- Result of the hit-determination phase: closest hit fraction, hit ship,
whether the trigger-radius query / directed-segment query / asteroid query
were consulted, and which ship's exact mask was tested by the phasing branch. -/
structure Probe where
  closestHit : Scalar
  hit : Option Ship
  usedTrigger : Bool
  usedLine : Bool
  usedAsteroids : Bool
  maskTestedOn : Option Ship
  deriving DecidableEq, Repr

/-- Hit determination, mirroring Engine.cpp lines 1514-1572: a projectile with
no government explodes at fraction 0; a phasing projectile with a (cached)
target tests only that target's mask, and only when the locked reference is
live, in the player's system, at full zoom and not fully cloaked; otherwise
the trigger-radius circle query, the directed-segment query and (for
non-phasing weapons) the asteroid query run. -/
def collidePhase (env : Env) (shipCollisions : List Ship) (playerSystem : Nat)
    (p : Projectile) : Probe :=
  match p.gov with
  | none =>
      { closestHit := Scalar.zero, hit := none, usedTrigger := false
        usedLine := false, usedAsteroids := false, maskTestedOn := none }
  | some gov =>
      if p.weapon.isPhasing && p.targetCached.isSome then
        match p.targetPtr with
        | some target =>
            if target.system == playerSystem && target.zoomFull
                && Scalar.blt target.cloak Scalar.one then
              let range := env.maskCollide target
                  (Point.sub p.position target.position) p.velocity
              if Scalar.blt range Scalar.one then
                { closestHit := range, hit := some target, usedTrigger := false
                  usedLine := false, usedAsteroids := false
                  maskTestedOn := some target }
              else
                { closestHit := Scalar.one, hit := none, usedTrigger := false
                  usedLine := false, usedAsteroids := false
                  maskTestedOn := some target }
            else
              { closestHit := Scalar.one, hit := none, usedTrigger := false
                usedLine := false, usedAsteroids := false, maskTestedOn := none }
        | none =>
            { closestHit := Scalar.one, hit := none, usedTrigger := false
              usedLine := false, usedAsteroids := false, maskTestedOn := none }
      else
        let tr := p.weapon.triggerRadius
        let triggered := !Scalar.isZero tr
            && (circleQuery shipCollisions p.position tr).any fun b =>
                 p.targetCached == some b.uid || env.isEnemyG gov b.gov
        let afterLine :=
          if triggered then (none, Scalar.zero)
          else lineQuery env shipCollisions p Scalar.one
        if p.weapon.isPhasing then
          { closestHit := afterLine.2, hit := afterLine.1
            usedTrigger := !Scalar.isZero tr, usedLine := !triggered
            usedAsteroids := false, maskTestedOn := none }
        else
          let ca := env.asteroidCollide p afterLine.2
          if Scalar.blt ca afterLine.2 then
            { closestHit := ca, hit := none
              usedTrigger := !Scalar.isZero tr, usedLine := !triggered
              usedAsteroids := true, maskTestedOn := none }
          else
            { closestHit := afterLine.2, hit := afterLine.1
              usedTrigger := !Scalar.isZero tr, usedLine := !triggered
              usedAsteroids := true, maskTestedOn := none }

/-- Whether the C++ IsEnemy call would answer true; an absent government is
never consulted on the reachable paths. -/
def isEnemyOpt (env : Env) (g : Option Nat) (shipGov : Nat) : Bool :=
  match g with
  | some gov => env.isEnemyG gov shipGov
  | none => false

/-- The blast loop body over one collision set (Engine.cpp lines 1591-1616):
skip a body only if the weapon is safe and the body is neither the cached
target nor an enemy of the firer; otherwise apply damage and append the
resulting typed event when nonzero. -/
def blastDamage (env : Env) (p : Projectile) (hit : Option Ship) :
    List Ship → List Ship × List (Option Nat × Ship × Int)
  | [] => ([], [])
  | body :: rest =>
      let acc := blastDamage env p hit rest
      if p.weapon.isSafe && !(p.targetCached == some body.uid)
          && !isEnemyOpt env p.gov body.gov then
        acc
      else
        let et := env.takeDamage body p (!(hit == some body))
        (body :: acc.1, if et ≠ 0 then (p.gov, body, et) :: acc.2 else acc.2)

/-- The anti-missile pass (Engine.cpp lines 1630-1638): each ship recorded as
anti-missile-ready is tried in order; only the cached target or an enemy of
the projectile's government is eligible; the first successful interception
wins.  Returns the ships on which FireAntiMissile was invoked and the
interceptor, if any. -/
def amPass (env : Env) (gov : Nat) (p : Projectile) :
    List Ship → List Ship × Option Ship
  | [] => ([], none)
  | s :: rest =>
      if p.targetCached == some s.uid || env.isEnemyG gov s.gov then
        if env.fireAntiMissile s p then ([s], some s)
        else
          let acc := amPass env gov p rest
          (s :: acc.1, acc.2)
      else amPass env gov p rest

/-- The fractional impact point of a detonation this step. -/
def blastHitPos (p : Projectile) (ch : Scalar) : Point :=
  Point.add p.position (Point.smul ch p.velocity)

structure Outcome where
  closestHit : Scalar
  hit : Option Ship
  /-- Projectile::Explode was called (the projectile hit something) -/
  exploded : Bool
  /-- ships TakeDamage was applied to, in application order -/
  damaged : List Ship
  /-- typed events appended to the event queue: (government, ship, type) -/
  events : List (Option Nat × Ship × Int)
  /-- argument pair of the DoGrudge call, when one is made -/
  grudgeTarget : Option (Ship × Option Nat)
  usedTrigger : Bool
  usedLine : Bool
  usedAsteroids : Bool
  maskTestedOn : Option Ship
  /-- ships on which FireAntiMissile was invoked -/
  amTried : List Ship
  /-- the intercepting ship, if any -/
  amInterceptor : Option Ship
  /-- Projectile::Kill was called by the anti-missile pass -/
  killed : Bool
  deriving DecidableEq, Repr

/-- Shallow embedding of Engine::DoCollisions. -/
def doCollisions (env : Env) (shipCollisions cloakedCollisions : List Ship)
    (hasAntiMissile : List Ship) (playerSystem : Nat) (p : Projectile) : Outcome :=
  let pr := collidePhase env shipCollisions playerSystem p
  if Scalar.blt pr.closestHit Scalar.one then
    -- the projectile hit something: explode, then apply damage
    let blast := p.weapon.blastRadius
    let dam :=
      if !Scalar.isZero blast then
        let hitPos := blastHitPos p pr.closestHit
        let d1 := blastDamage env p pr.hit (circleQuery shipCollisions hitPos blast)
        let d2 := blastDamage env p pr.hit (circleQuery cloakedCollisions hitPos blast)
        (d1.1 ++ d2.1, d1.2 ++ d2.2)
      else
        match pr.hit with
        | some h =>
            let et := env.takeDamage h p false
            ([h], if et ≠ 0 then [(p.gov, h, et)] else [])
        | none => ([], [])
    { closestHit := pr.closestHit, hit := pr.hit, exploded := true
      damaged := dam.1, events := dam.2
      grudgeTarget := pr.hit.map fun h => (h, p.gov)
      usedTrigger := pr.usedTrigger, usedLine := pr.usedLine
      usedAsteroids := pr.usedAsteroids, maskTestedOn := pr.maskTestedOn
      amTried := [], amInterceptor := none, killed := false }
  else if p.missileStrength ≠ 0 then
    -- no hit: the anti-missile systems get their chance
    let am :=
      match p.gov with
      | some gov => amPass env gov p hasAntiMissile
      | none => ([], none)
    { closestHit := pr.closestHit, hit := pr.hit, exploded := false
      damaged := [], events := [], grudgeTarget := none
      usedTrigger := pr.usedTrigger, usedLine := pr.usedLine
      usedAsteroids := pr.usedAsteroids, maskTestedOn := pr.maskTestedOn
      amTried := am.1, amInterceptor := am.2, killed := am.2.isSome }
  else
    { closestHit := pr.closestHit, hit := pr.hit, exploded := false
      damaged := [], events := [], grudgeTarget := none
      usedTrigger := pr.usedTrigger, usedLine := pr.usedLine
      usedAsteroids := pr.usedAsteroids, maskTestedOn := pr.maskTestedOn
      amTried := [], amInterceptor := none, killed := false }

/-- Engine::FillCollisionSets (lines 1291-1311): ships of the player's system
at full zoom, split into the visible set (cloak < 1) and the cloaked set. -/
def fillCollisionSets (ships : List Ship) (playerSystem : Nat) :
    List Ship × List Ship :=
  (ships.filter fun s =>
      s.system == playerSystem && s.zoomFull && Scalar.blt s.cloak Scalar.one,
   ships.filter fun s =>
      s.system == playerSystem && s.zoomFull && !Scalar.blt s.cloak Scalar.one)

structure Flotsam where
  position : Point
  /-- source ship, by uid; excluded from self-pickup -/
  source : Option Nat
  unitSize : Scalar
  deriving DecidableEq, Repr

/-- Engine::DoCollection (lines 1644-1661): the collector is the first body of
the visible-set circle query of radius 5 around the flotsam that can act, is
not the flotsam's source, and has enough free cargo space. -/
def doCollection (shipCollisions : List Ship) (fl : Flotsam) : Option Ship :=
  (circleQuery shipCollisions fl.position (Scalar.ofInt 5)).find? fun s =>
    !s.cannotAct && !(fl.source == some s.uid)
      && Scalar.ble fl.unitSize s.cargoFree

end Collide

/-- A default ship for concrete scenarios. -/
def baseShip : Collide.Ship :=
  { uid := 0, gov := 0
    position := ⟨Scalar.zero, Scalar.zero⟩, velocity := ⟨Scalar.zero, Scalar.zero⟩
    system := 0, zoomFull := true, cloak := Scalar.zero, radius := Scalar.one
    disabled := false, targetShip := none
    shields := Scalar.one, hull := Scalar.one, cost := Scalar.one
    isMute := false, isHeroic := false, cannotAct := false, cargoFree := Scalar.one }

def c3Env : Collide.Env :=
  { isEnemyG := fun _ _ => false
    maskCollide := fun _ _ _ => Scalar.zero
    asteroidCollide := fun _ b => b
    fireAntiMissile := fun _ _ => false
    takeDamage := fun _ _ _ => 1 }

def c3Visible : Collide.Ship := { baseShip with uid := 1, gov := 2 }

def c3Cloaked : Collide.Ship := { baseShip with uid := 2, gov := 2, cloak := Scalar.one }

/-- A non-safe blast-radius projectile of government 3 that detonates at its
start position. -/
def c3Proj : Collide.Projectile :=
  { position := ⟨Scalar.zero, Scalar.zero⟩, velocity := ⟨Scalar.zero, Scalar.zero⟩
    gov := some 3, targetCached := none, targetPtr := none
    weapon := { isPhasing := false, isSafe := false
                triggerRadius := Scalar.zero, blastRadius := Scalar.one }
    missileStrength := 0 }

def c7Target : Collide.Ship := { baseShip with uid := 7, gov := 2 }

def c7Env : Collide.Env :=
  { isEnemyG := fun _ _ => true
    maskCollide := fun _ _ _ => Scalar.zero
    asteroidCollide := fun _ b => b
    fireAntiMissile := fun _ _ => false
    takeDamage := fun _ _ _ => 1 }

/-- A phasing projectile of government 3 locked on ship 7. -/
def c7Proj : Collide.Projectile :=
  { position := ⟨Scalar.zero, Scalar.zero⟩, velocity := ⟨Scalar.zero, Scalar.zero⟩
    gov := some 3, targetCached := some 7, targetPtr := some c7Target
    weapon := { isPhasing := true, isSafe := false
                triggerRadius := Scalar.one, blastRadius := Scalar.zero }
    missileStrength := 0 }

/-- A ship explosion: a projectile with no government. -/
def c9Explosion : Collide.Projectile :=
  { position := ⟨Scalar.zero, Scalar.zero⟩, velocity := ⟨Scalar.zero, Scalar.zero⟩
    gov := none, targetCached := none, targetPtr := none
    weapon := { isPhasing := false, isSafe := false
                triggerRadius := Scalar.zero, blastRadius := Scalar.one }
    missileStrength := 0 }

def c4Env : Collide.Env :=
  { isEnemyG := fun _ _ => true
    maskCollide := fun _ _ _ => Scalar.one
    asteroidCollide := fun _ b => b
    fireAntiMissile := fun _ _ => false
    takeDamage := fun _ _ _ => 1 }

def c4Ship : Collide.Ship := { baseShip with uid := 4, gov := 2 }

/-- A homing projectile of government 3 that misses every ship this step. -/
def c4Proj : Collide.Projectile :=
  { position := ⟨Scalar.zero, Scalar.zero⟩, velocity := ⟨Scalar.zero, Scalar.zero⟩
    gov := some 3, targetCached := none, targetPtr := none
    weapon := { isPhasing := false, isSafe := false
                triggerRadius := Scalar.zero, blastRadius := Scalar.zero }
    missileStrength := 5 }

/-- The same scenario with a succeeding interception attempt. -/
def c4EnvHit : Collide.Env :=
  { isEnemyG := fun _ _ => true
    maskCollide := fun _ _ _ => Scalar.one
    asteroidCollide := fun _ b => b
    fireAntiMissile := fun _ _ => true
    takeDamage := fun _ _ _ => 1 }

def c10Collector : Collide.Ship := { baseShip with uid := 3, gov := 2 }

def c10Flotsam : Collide.Flotsam :=
  { position := ⟨Scalar.zero, Scalar.zero⟩, source := none, unitSize := Scalar.one }

namespace Grudge

structure GrudgeEnv where
  /-- Government::IsPlayer -/
  isPlayer : Nat → Bool
  /-- Government::IsEnemy() with no argument: enemy of the player -/
  isEnemyOfPlayer : Nat → Bool
  /-- Government::Language().empty() -/
  languageEmpty : Nat → Bool
  /-- player.GetCondition("language: ...") is nonzero -/
  playerKnows : Nat → Bool
  /-- weak_ptr::lock by ship uid; none once the referent is destroyed -/
  lock : Nat → Option Collide.Ship

structure GrudgeResult where
  grudge : List (Nat × Option Nat)
  grudgeTime : Nat
  raised : Bool
  thanked : Bool
  deriving DecidableEq, Repr

/-- Association-list lookup; the outer Option is map membership
(`grudge.count`), the inner one the stored weak pointer. -/
def lookupGrudge (grudge : List (Nat × Option Nat)) (g : Nat) : Option (Option Nat) :=
  (grudge.find? fun e => e.1 == g).map Prod.snd

/-- The (shield + hull) * cost strength heuristic. -/
def strengthOf (s : Collide.Ship) : Scalar :=
  Scalar.mul (Scalar.add s.shields s.hull) s.cost

/-- Combined strength of the attacker's ships currently targeting the victim. -/
def attackerStrength (ships : List Collide.Ship) (attacker : Nat) (targetUid : Nat) :
    Scalar :=
  ships.foldl
    (fun acc s =>
      if s.gov == attacker && s.targetShip == some targetUid then
        Scalar.add acc (strengthOf s)
      else acc)
    Scalar.zero

def noChange (grudge : List (Nat × Option Nat)) (grudgeTime : Nat) : GrudgeResult :=
  { grudge := grudge, grudgeTime := grudgeTime, raised := false, thanked := false }

/-- Shallow embedding of Engine::DoGrudge.  The final probability draw
`Random::Real() * 10. > attackerStrength / targetStrength - 1.` is embedded
multiplied through by the (nonnegative) target strength:
`randReal * 10 * tS > aS - tS`.  For positive tS this is the same comparison;
for tS = 0 the double division yields +inf and the C++ comparison is false,
and the multiplied form is false as well since aS > tS = 0 on this path. -/
def doGrudge (env : GrudgeEnv) (ships : List Collide.Ship) (playerSystem : Nat)
    (randReal : Scalar) (grudge : List (Nat × Option Nat)) (grudgeTime : Nat)
    (target : Collide.Ship) (attacker : Nat) : GrudgeResult :=
  if env.isPlayer attacker then
    -- player-caused damage: thank the current requester, if alive and present
    let prev : Option Collide.Ship :=
      match lookupGrudge grudge target.gov with
      | some (some uid) => env.lock uid
      | _ => none
    -- operator[] default-inserts an empty weak pointer when the key is absent
    let g1 := if (lookupGrudge grudge target.gov).isSome then grudge
              else (target.gov, none) :: grudge
    match prev with
    | some pship =>
        if pship.system == playerSystem && !pship.disabled then
          { grudge := (target.gov, none) :: g1, grudgeTime := grudgeTime
            raised := false, thanked := true }
        else noChange g1 grudgeTime
    | none => noChange g1 grudgeTime
  else if grudgeTime ≠ 0 then noChange grudge grudgeTime
  else
    -- an existing registration blocks a new request unless its ship is alive
    -- but disabled or gone from the player's system
    let blocked :=
      match lookupGrudge grudge attacker with
      | none => false
      | some none => true
      | some (some uid) =>
          match env.lock uid with
          | none => true
          | some pship => pship.system == playerSystem && !pship.disabled
    if blocked then noChange grudge grudgeTime
    else if env.isPlayer target.gov then noChange grudge grudgeTime
    else if !env.isEnemyOfPlayer attacker then noChange grudge grudgeTime
    else if env.isEnemyOfPlayer target.gov then noChange grudge grudgeTime
    else if target.isMute then noChange grudge grudgeTime
    else if !env.languageEmpty target.gov && !env.playerKnows target.gov then
      noChange grudge grudgeTime
    else
      let tS := strengthOf target
      let aS := attackerStrength ships attacker target.uid
      if Scalar.ble aS tS then noChange grudge grudgeTime
      else if Scalar.blt (Scalar.sub aS tS)
          (Scalar.mul (Scalar.mul randReal (Scalar.ofInt 10)) tS) then
        noChange grudge grudgeTime
      else
        { grudge := (attacker, some target.uid) :: grudge, grudgeTime := 120
          raised := true, thanked := false }

end Grudge

def c5Env : Grudge.GrudgeEnv :=
  { isPlayer := fun g => g == 0
    isEnemyOfPlayer := fun g => g == 5
    languageEmpty := fun _ => true
    playerKnows := fun _ => false
    lock := fun _ => none }

/-- The victim of the new qualifying attack by faction 5. -/
def c5Target : Collide.Ship := { baseShip with uid := 1, gov := 2 }

/-- An attacking ship of faction 5 targeting the victim, much stronger. -/
def c5Attacker : Collide.Ship :=
  { baseShip with
    uid := 6, gov := 5, targetShip := some 1,
    shields := Scalar.ofInt 9, hull := Scalar.ofInt 9 }

namespace Spawn

structure FleetDef where
  fid : Nat
  gov : Option Nat
  deriving DecidableEq, Repr

/-- The per-fleet decision of Engine::SpawnFleets: the period draw must
succeed, the fleet needs a government, and the fleet is skipped when its
in-system enemy strength is nonzero and its allied strength exceeds twice
that enemy strength. -/
def fleetPlaced (draws : FleetDef → Bool) (eS aS : Nat → Int) (f : FleetDef) : Bool :=
  draws f &&
    match f.gov with
    | none => false
    | some g => !(eS g != 0 && decide (2 * eS g < aS g))

/-- Shallow embedding of Engine::SpawnFleets: the fleets actually placed. -/
def spawnFleets (draws : FleetDef → Bool) (eS aS : Nat → Int)
    (fleets : List FleetDef) : List FleetDef :=
  fleets.filter (fleetPlaced draws eS aS)

structure PersonDef where
  pid : Nat
  freq : Nat
  deriving DecidableEq, Repr

def totalFreq (persons : List PersonDef) : Nat :=
  (persons.map PersonDef.freq).sum

/-- The running-subtraction selection loop of Engine::SpawnPersons: starting
from the drawn value, subtract each person's frequency; the first person that
drives the value below zero is chosen. -/
def pickPerson : Int → List PersonDef → Option Nat
  | _, [] => none
  | d, q :: rest => if d - q.freq < 0 then some q.pid else pickPerson (d - q.freq) rest

/-- Shallow embedding of Engine::SpawnPersons.  `gateDraw` is the
Random::Int(36000) long-period draw (0 fires); `choiceDraw` is the
Random::Int(totalFreq + 1000) selection draw. -/
def spawnPersons (gateDraw : Nat) (linksEmpty : Bool) (choiceDraw : Nat)
    (persons : List PersonDef) : Option Nat :=
  if gateDraw != 0 || linksEmpty then none
  else if totalFreq persons = 0 then none
  else pickPerson (choiceDraw : Int) persons

end Spawn

def c6Fleet : Spawn.FleetDef := { fid := 0, gov := some 1 }

def c8P1 : List Spawn.PersonDef := [{ pid := 1, freq := 1000 }]

def c8P2 : List Spawn.PersonDef := [{ pid := 1, freq := 1000 }, { pid := 2, freq := 1000 }]

namespace Sync

theorem bool_ne_not (b : Bool) : b ≠ !b := by cases b <;> decide

theorem syncInv_of_reachable (s : SyncState) (h : Reachable s) : SyncInv s := by
  induction h with
  | init => simp [SyncInv, initState]
  | next l hs hstep ih =>
      obtain ⟨ih1, ih2, ih3, ih4⟩ := ih
      cases l
      case waitReturn =>
        simp only [syncStep] at hstep
        split at hstep
        case isTrue hc =>
          injection hstep with h; subst h
          exact ⟨ih1, ih2, ih3, fun _ => hc.2⟩
        case isFalse => cases hstep
      case stepCapture =>
        simp only [syncStep] at hstep
        split at hstep
        case isTrue hc =>
          injection hstep with h; subst h
          exact ⟨ih1, ih2, ih3, fun _ => ih4 (Or.inl hc)⟩
        case isFalse => cases hstep
      case go =>
        simp only [syncStep] at hstep
        split at hstep
        case isTrue hc =>
          injection hstep with h; subst h
          have hcd := ih4 (Or.inr hc)
          refine ⟨?_, ?_, ?_, ?_⟩
          · intro _ hne
            rw [hcd] at hne
            exact bool_ne_not _ hne
          · intro hco
            rw [hcd] at hco
            exact absurd hco (bool_ne_not _)
          · intro _
            simp [ih2 hcd]
          · intro hfg
            simp at hfg
        case isFalse => cases hstep
      case workerStart =>
        simp only [syncStep] at hstep
        split at hstep
        case isTrue hc =>
          injection hstep with h; subst h
          exact ⟨fun _ => hc.2, ih2, ih3, ih4⟩
        case isFalse => cases hstep
      case workerFinish =>
        simp only [syncStep] at hstep
        split at hstep
        case isTrue hc =>
          injection hstep with h; subst h
          have hne := ih1 hc
          exact ⟨by simp, fun _ => ih3 hne, by simp, fun _ => rfl⟩
        case isFalse => cases hstep

end Sync

/-- C1: under the tick-tock protocol, every Wait() return happens in a state
where the number of completed CalculateStep runs equals the number of Go()
calls (exactly one completed calculation per Go, never zero and never two
merged); whenever a Go is outstanding exactly one calculation is pending; and
whenever the worker is inside CalculateStep, the slot it is computing into
(calcTickTock) differs from the slot being drawn (drawTickTock). -/
theorem c1_wait_returns_after_exactly_one_calculation
    (s : Sync.SyncState) (h : Sync.Reachable s) :
    (s.fg = Sync.FgPhase.needWait → s.calcTickTock = s.drawTickTock → s.done = s.gos)
    ∧ (s.calcTickTock ≠ s.drawTickTock → s.done + 1 = s.gos)
    ∧ (s.busy = true → s.calcTickTock ≠ s.drawTickTock) := by
  obtain ⟨i1, i2, i3, i4⟩ := Sync.syncInv_of_reachable s h
  exact ⟨fun _ => i2, i3, i1⟩

theorem c1_wait_returns_after_exactly_one_calculation_witness :
    (c1WitnessState.fg = Sync.FgPhase.needWait →
        c1WitnessState.calcTickTock = c1WitnessState.drawTickTock →
        c1WitnessState.done = c1WitnessState.gos)
    ∧ (c1WitnessState.calcTickTock ≠ c1WitnessState.drawTickTock →
        c1WitnessState.done + 1 = c1WitnessState.gos)
    ∧ (c1WitnessState.busy = true →
        c1WitnessState.calcTickTock ≠ c1WitnessState.drawTickTock) := by
  apply c1_wait_returns_after_exactly_one_calculation
  have h0 : Sync.Reachable Sync.initState := Sync.Reachable.init
  have h1 : Sync.Reachable ⟨false, false, false, Sync.FgPhase.needStep, 0, 0⟩ :=
    Sync.Reachable.next Sync.SyncLabel.waitReturn h0 (by decide)
  have h2 : Sync.Reachable ⟨false, false, false, Sync.FgPhase.needGo, 0, 0⟩ :=
    Sync.Reachable.next Sync.SyncLabel.stepCapture h1 (by decide)
  have h3 : Sync.Reachable ⟨false, true, false, Sync.FgPhase.needWait, 1, 0⟩ :=
    Sync.Reachable.next Sync.SyncLabel.go h2 (by decide)
  have h4 : Sync.Reachable ⟨false, true, true, Sync.FgPhase.needWait, 1, 0⟩ :=
    Sync.Reachable.next Sync.SyncLabel.workerStart h3 (by decide)
  exact Sync.Reachable.next Sync.SyncLabel.workerFinish h4 (by decide)

/-- C2 (amended): entities staged during a step (newShips, newProjectiles,
newFlotsam, newVisuals, spliced onto the live collections at the single merge
point) are included in that step's draw snapshot and are not moved this step;
they first move in the following step.  However, because the splice happens
before FillCollisionSets, DoCollisions and DoCollection, newly created
projectiles do participate in this step's collision detection, newly created
ships are entered into this step's collision sets, and newly created flotsam
is checked for collection this step. -/
theorem c2_staged_entities_drawn_this_step_moved_next
    (plan plan2 : Pipeline.StepPlan) (w : Pipeline.World) (n : Nat) :
    (n ∈ (Pipeline.calculateStep plan w).stagedShips → n ∉ w.ships →
        n ∉ (Pipeline.calculateStep plan w).movedShips
        ∧ n ∈ (Pipeline.calculateStep plan w).world.ships
        ∧ (plan.inSystem n = true →
            n ∈ (Pipeline.calculateStep plan w).collisionSetShips)
        ∧ (plan.inSystem n = true → plan.hasSprite n = true →
            n ∈ (Pipeline.calculateStep plan w).drawnShips)
        ∧ n ∈ (Pipeline.calculateStep plan2
            (Pipeline.calculateStep plan w).world).movedShips)
    ∧ (n ∈ (Pipeline.calculateStep plan w).stagedProjectiles → n ∉ w.projectiles →
        n ∉ (Pipeline.calculateStep plan w).movedProjectiles
        ∧ n ∈ (Pipeline.calculateStep plan w).collidedProjectiles
        ∧ n ∈ (Pipeline.calculateStep plan w).drawnProjectiles
        ∧ n ∈ (Pipeline.calculateStep plan2
            (Pipeline.calculateStep plan w).world).movedProjectiles)
    ∧ (n ∈ (Pipeline.calculateStep plan w).stagedFlotsam → n ∉ w.flotsam →
        n ∉ (Pipeline.calculateStep plan w).movedFlotsam
        ∧ n ∈ (Pipeline.calculateStep plan w).collectionChecked
        ∧ n ∈ (Pipeline.calculateStep plan w).drawnFlotsam
        ∧ n ∈ (Pipeline.calculateStep plan2
            (Pipeline.calculateStep plan w).world).movedFlotsam)
    ∧ (n ∈ (Pipeline.calculateStep plan w).stagedVisuals → n ∉ w.visuals →
        n ∉ (Pipeline.calculateStep plan w).movedVisuals
        ∧ n ∈ (Pipeline.calculateStep plan w).drawnVisuals
        ∧ n ∈ (Pipeline.calculateStep plan2
            (Pipeline.calculateStep plan w).world).movedVisuals) := by
  refine ⟨fun hst hnot => ⟨hnot, ?_, ?_, ?_, ?_⟩,
          fun hst hnot => ⟨hnot, ?_, ?_, ?_⟩,
          fun hst hnot => ⟨hnot, ?_, ?_, ?_⟩,
          fun hst hnot => ⟨hnot, ?_, ?_⟩⟩
  · exact List.mem_append_right _ hst
  · intro hin
    exact List.mem_filter.mpr ⟨List.mem_append_right _ hst, hin⟩
  · intro hin hsp
    exact List.mem_filter.mpr ⟨List.mem_append_right _ hst, by simp [hin, hsp]⟩
  · exact List.mem_append_right _ hst
  · exact List.mem_append_right _ hst
  · exact List.mem_append_right _ hst
  · exact List.mem_append_right _ hst
  · exact List.mem_append_right _ hst
  · exact List.mem_append_right _ hst
  · exact List.mem_append_right _ hst
  · exact List.mem_append_right _ hst
  · exact List.mem_append_right _ hst

/-- C2 counterexample: projectile 5 is newly created this step (staged, not in
the pre-step projectile list) yet DoCollisions runs on it this very step, and
the newly spawned ship 9 is entered into this step's collision sets.  This
refutes the claim that newly created entities "do not participate in that
step's collision detection": the splice happens before the collision pass, as
the source comment at the merge point itself states. -/
theorem c2_counterexample :
    5 ∈ (Pipeline.calculateStep c2Plan c2World).stagedProjectiles
    ∧ 5 ∉ c2World.projectiles
    ∧ 5 ∈ (Pipeline.calculateStep c2Plan c2World).collidedProjectiles
    ∧ 9 ∈ (Pipeline.calculateStep c2Plan c2World).stagedShips
    ∧ 9 ∉ c2World.ships
    ∧ 9 ∈ (Pipeline.calculateStep c2Plan c2World).collisionSetShips := by
  decide

theorem c2_staged_entities_drawn_this_step_moved_next_witness :
    5 ∉ (Pipeline.calculateStep c2Plan c2World).movedProjectiles
    ∧ 5 ∈ (Pipeline.calculateStep c2Plan c2World).collidedProjectiles
    ∧ 5 ∈ (Pipeline.calculateStep c2Plan c2World).drawnProjectiles
    ∧ 5 ∈ (Pipeline.calculateStep c2Plan
        (Pipeline.calculateStep c2Plan c2World).world).movedProjectiles :=
  (c2_staged_entities_drawn_this_step_moved_next c2Plan c2Plan c2World 5).2.1
    (by decide) (by decide)

namespace Collide

theorem mem_circleQuery (set : List Ship) (c : Point) (r : Scalar) (s : Ship) :
    s ∈ circleQuery set c r ↔ s ∈ set ∧ hitCircleIntersects s c r = true := by
  simp [circleQuery, List.mem_filter]

theorem mem_blastDamage (env : Env) (p : Projectile) (hit : Option Ship)
    (q : List Ship) (s : Ship) :
    s ∈ (blastDamage env p hit q).1 ↔
      s ∈ q ∧ (p.weapon.isSafe && !(p.targetCached == some s.uid)
        && !isEnemyOpt env p.gov s.gov) = false := by
  induction q with
  | nil => simp [blastDamage]
  | cons b rest ih =>
      simp only [blastDamage]
      split
      case isTrue hc =>
        rw [ih]
        simp only [List.mem_cons]
        constructor
        · rintro ⟨hm, hcond⟩
          exact ⟨Or.inr hm, hcond⟩
        · rintro ⟨hm | hm, hcond⟩
          · subst hm
            exact absurd hc (by simp [hcond])
          · exact ⟨hm, hcond⟩
      case isFalse hc =>
        simp only [List.mem_cons]
        constructor
        · rintro (rfl | hm)
          · exact ⟨Or.inl rfl, Bool.eq_false_iff.mpr hc⟩
          · obtain ⟨h1, h2⟩ := ih.mp hm
            exact ⟨Or.inr h1, h2⟩
        · rintro ⟨hm | hm, hcond⟩
          · subst hm
            exact Or.inl rfl
          · exact Or.inr (ih.mpr ⟨hm, hcond⟩)

theorem blastDamage_events_damaged (env : Env) (p : Projectile) (hit : Option Ship)
    (q : List Ship) :
    ∀ e ∈ (blastDamage env p hit q).2, e.2.1 ∈ (blastDamage env p hit q).1 := by
  induction q with
  | nil =>
      intro e he
      simp [blastDamage] at he
  | cons b rest ih =>
      intro e he
      simp only [blastDamage] at he ⊢
      split at he
      case isTrue hc =>
        rw [if_pos hc]
        exact ih e he
      case isFalse hc =>
        rw [if_neg hc]
        simp only at he
        split at he
        case isTrue het =>
          rcases List.mem_cons.mp he with rfl | he
          · exact List.mem_cons_self _ _
          · exact List.mem_cons_of_mem _ (ih e he)
        case isFalse het =>
          exact List.mem_cons_of_mem _ (ih e he)

theorem amPass_interceptor (env : Env) (gov : Nat) (p : Projectile) (ham : List Ship) :
    (amPass env gov p ham).2 =
      (ham.filter fun s => p.targetCached == some s.uid || env.isEnemyG gov s.gov).find?
        fun s => env.fireAntiMissile s p := by
  induction ham with
  | nil => simp [amPass]
  | cons s rest ih =>
      simp only [amPass, List.filter_cons]
      by_cases he : (p.targetCached == some s.uid || env.isEnemyG gov s.gov) = true
      · rw [if_pos he, if_pos he]
        by_cases hf : env.fireAntiMissile s p = true
        · simp [List.find?, hf]
        · have hf' := Bool.eq_false_iff.mpr hf
          simp [List.find?, hf', ih]
      · rw [if_neg he, if_neg he]
        exact ih

theorem amPass_tried_eligible (env : Env) (gov : Nat) (p : Projectile) (ham : List Ship) :
    ∀ s ∈ (amPass env gov p ham).1,
      (p.targetCached == some s.uid || env.isEnemyG gov s.gov) = true := by
  induction ham with
  | nil =>
      intro s hs
      simp [amPass] at hs
  | cons b rest ih =>
      intro s hs
      simp only [amPass] at hs
      split at hs
      case isTrue he =>
        split at hs
        case isTrue hf =>
          rcases List.mem_singleton.mp hs with rfl
          exact he
        case isFalse hf =>
          rcases List.mem_cons.mp hs with rfl | hs
          · exact he
          · exact ih s hs
      case isFalse he =>
        exact ih s hs

theorem doCollisions_closestHit (env : Env) (sc cc ham : List Ship) (sys : Nat)
    (p : Projectile) :
    (doCollisions env sc cc ham sys p).closestHit = (collidePhase env sc sys p).closestHit := by
  simp only [doCollisions]
  split
  · rfl
  · split <;> rfl

theorem doCollisions_hit (env : Env) (sc cc ham : List Ship) (sys : Nat)
    (p : Projectile) :
    (doCollisions env sc cc ham sys p).hit = (collidePhase env sc sys p).hit := by
  simp only [doCollisions]
  split
  · rfl
  · split <;> rfl

theorem doCollisions_usedTrigger (env : Env) (sc cc ham : List Ship) (sys : Nat)
    (p : Projectile) :
    (doCollisions env sc cc ham sys p).usedTrigger = (collidePhase env sc sys p).usedTrigger := by
  simp only [doCollisions]
  split
  · rfl
  · split <;> rfl

theorem doCollisions_usedLine (env : Env) (sc cc ham : List Ship) (sys : Nat)
    (p : Projectile) :
    (doCollisions env sc cc ham sys p).usedLine = (collidePhase env sc sys p).usedLine := by
  simp only [doCollisions]
  split
  · rfl
  · split <;> rfl

theorem doCollisions_usedAsteroids (env : Env) (sc cc ham : List Ship) (sys : Nat)
    (p : Projectile) :
    (doCollisions env sc cc ham sys p).usedAsteroids = (collidePhase env sc sys p).usedAsteroids := by
  simp only [doCollisions]
  split
  · rfl
  · split <;> rfl

theorem doCollisions_maskTestedOn (env : Env) (sc cc ham : List Ship) (sys : Nat)
    (p : Projectile) :
    (doCollisions env sc cc ham sys p).maskTestedOn = (collidePhase env sc sys p).maskTestedOn := by
  simp only [doCollisions]
  split
  · rfl
  · split <;> rfl

theorem doCollisions_exploded (env : Env) (sc cc ham : List Ship) (sys : Nat)
    (p : Projectile) :
    (doCollisions env sc cc ham sys p).exploded
      = Scalar.blt (collidePhase env sc sys p).closestHit Scalar.one := by
  simp only [doCollisions]
  split
  case isTrue hc => exact hc.symm
  case isFalse hc =>
    have hf := Bool.eq_false_iff.mpr hc
    split <;> exact hf.symm

theorem doCollisions_grudgeTarget (env : Env) (sc cc ham : List Ship) (sys : Nat)
    (p : Projectile) :
    (doCollisions env sc cc ham sys p).grudgeTarget
      = if Scalar.blt (collidePhase env sc sys p).closestHit Scalar.one then
          (collidePhase env sc sys p).hit.map fun h => (h, p.gov)
        else none := by
  simp only [doCollisions]
  split
  case isTrue hc => rfl
  case isFalse hc => split <;> rfl

theorem doCollisions_damaged_blast (env : Env) (sc cc ham : List Ship) (sys : Nat)
    (p : Projectile)
    (hch : Scalar.blt (collidePhase env sc sys p).closestHit Scalar.one = true)
    (hbl : Scalar.isZero p.weapon.blastRadius = false) :
    (doCollisions env sc cc ham sys p).damaged =
      (blastDamage env p (collidePhase env sc sys p).hit
        (circleQuery sc (blastHitPos p (collidePhase env sc sys p).closestHit)
          p.weapon.blastRadius)).1
      ++ (blastDamage env p (collidePhase env sc sys p).hit
        (circleQuery cc (blastHitPos p (collidePhase env sc sys p).closestHit)
          p.weapon.blastRadius)).1 := by
  have hbl' : (!Scalar.isZero p.weapon.blastRadius) = true := by simp [hbl]
  simp only [doCollisions]
  rw [if_pos hch, if_pos hbl']

theorem doCollisions_damaged_noDetonate (env : Env) (sc cc ham : List Ship) (sys : Nat)
    (p : Projectile)
    (hch : Scalar.blt (collidePhase env sc sys p).closestHit Scalar.one = false) :
    (doCollisions env sc cc ham sys p).damaged = [] := by
  simp only [doCollisions]
  rw [if_neg (by simp [hch])]
  split <;> rfl

theorem doCollisions_events_blast (env : Env) (sc cc ham : List Ship) (sys : Nat)
    (p : Projectile)
    (hch : Scalar.blt (collidePhase env sc sys p).closestHit Scalar.one = true)
    (hbl : Scalar.isZero p.weapon.blastRadius = false) :
    (doCollisions env sc cc ham sys p).events =
      (blastDamage env p (collidePhase env sc sys p).hit
        (circleQuery sc (blastHitPos p (collidePhase env sc sys p).closestHit)
          p.weapon.blastRadius)).2
      ++ (blastDamage env p (collidePhase env sc sys p).hit
        (circleQuery cc (blastHitPos p (collidePhase env sc sys p).closestHit)
          p.weapon.blastRadius)).2 := by
  have hbl' : (!Scalar.isZero p.weapon.blastRadius) = true := by simp [hbl]
  simp only [doCollisions]
  rw [if_pos hch, if_pos hbl']

theorem doCollisions_damaged_single (env : Env) (sc cc ham : List Ship) (sys : Nat)
    (p : Projectile)
    (hch : Scalar.blt (collidePhase env sc sys p).closestHit Scalar.one = true)
    (hbl : Scalar.isZero p.weapon.blastRadius = true) :
    (doCollisions env sc cc ham sys p).damaged =
      (match (collidePhase env sc sys p).hit with
        | some h => [h]
        | none => []) := by
  simp only [doCollisions]
  rw [if_pos hch, if_neg (by simp [hbl] : ¬((!Scalar.isZero p.weapon.blastRadius) = true))]
  split <;> rfl

theorem doCollisions_events_single (env : Env) (sc cc ham : List Ship) (sys : Nat)
    (p : Projectile)
    (hch : Scalar.blt (collidePhase env sc sys p).closestHit Scalar.one = true)
    (hbl : Scalar.isZero p.weapon.blastRadius = true) :
    (doCollisions env sc cc ham sys p).events =
      (match (collidePhase env sc sys p).hit with
        | some h =>
            if env.takeDamage h p false ≠ 0 then [(p.gov, h, env.takeDamage h p false)]
            else []
        | none => []) := by
  simp only [doCollisions]
  rw [if_pos hch, if_neg (by simp [hbl] : ¬((!Scalar.isZero p.weapon.blastRadius) = true))]
  split <;> rfl

theorem doCollisions_events_noDetonate (env : Env) (sc cc ham : List Ship) (sys : Nat)
    (p : Projectile)
    (hch : Scalar.blt (collidePhase env sc sys p).closestHit Scalar.one = false) :
    (doCollisions env sc cc ham sys p).events = [] := by
  simp only [doCollisions]
  rw [if_neg (by simp [hch])]
  split <;> rfl

theorem doCollisions_events_damaged (env : Env) (sc cc ham : List Ship) (sys : Nat)
    (p : Projectile) :
    ∀ e ∈ (doCollisions env sc cc ham sys p).events,
      e.2.1 ∈ (doCollisions env sc cc ham sys p).damaged := by
  intro e he
  by_cases hch : Scalar.blt (collidePhase env sc sys p).closestHit Scalar.one = true
  · by_cases hbl : Scalar.isZero p.weapon.blastRadius = true
    · rw [doCollisions_events_single env sc cc ham sys p hch hbl] at he
      rw [doCollisions_damaged_single env sc cc ham sys p hch hbl]
      cases hh : (collidePhase env sc sys p).hit with
      | none => simp [hh] at he
      | some h =>
          rw [hh] at he
          dsimp only at he ⊢
          by_cases het : env.takeDamage h p false ≠ 0
          · rw [if_pos het] at he
            rcases List.mem_singleton.mp he with rfl
            exact List.mem_singleton.mpr rfl
          · rw [if_neg het] at he
            simp at he
    · have hbl' := Bool.eq_false_iff.mpr hbl
      rw [doCollisions_events_blast env sc cc ham sys p hch hbl'] at he
      rw [doCollisions_damaged_blast env sc cc ham sys p hch hbl']
      rcases List.mem_append.mp he with he | he
      · exact List.mem_append_left _ (blastDamage_events_damaged env p _ _ e he)
      · exact List.mem_append_right _ (blastDamage_events_damaged env p _ _ e he)
  · have hch' := Bool.eq_false_iff.mpr hch
    rw [doCollisions_events_noDetonate env sc cc ham sys p hch'] at he
    simp at he

theorem collidePhase_noGov (env : Env) (sc : List Ship) (sys : Nat) (p : Projectile)
    (h : p.gov = none) :
    collidePhase env sc sys p =
      { closestHit := Scalar.zero, hit := none, usedTrigger := false
        usedLine := false, usedAsteroids := false, maskTestedOn := none } := by
  simp only [collidePhase, h]

theorem collidePhase_hit_gov (env : Env) (sc : List Ship) (sys : Nat) (p : Projectile)
    (h : Ship) (hh : (collidePhase env sc sys p).hit = some h) : p.gov.isSome = true := by
  cases hg : p.gov with
  | none =>
      rw [collidePhase_noGov env sc sys p hg] at hh
      simp at hh
  | some g => rfl

theorem collidePhase_phasing_fields (env : Env) (sc : List Ship) (sys : Nat)
    (p : Projectile) (g : Nat) (hgov : p.gov = some g)
    (hph : p.weapon.isPhasing = true) (htc : p.targetCached.isSome = true) :
    (collidePhase env sc sys p).usedTrigger = false
    ∧ (collidePhase env sc sys p).usedLine = false
    ∧ (collidePhase env sc sys p).usedAsteroids = false
    ∧ (∀ t, (collidePhase env sc sys p).maskTestedOn = some t →
        p.targetPtr = some t ∧ t.system = sys ∧ t.zoomFull = true
          ∧ Scalar.blt t.cloak Scalar.one = true)
    ∧ (∀ h, (collidePhase env sc sys p).hit = some h → p.targetPtr = some h) := by
  simp only [collidePhase, hgov]
  rw [if_pos (by simp [hph, htc] : (p.weapon.isPhasing && p.targetCached.isSome) = true)]
  cases hp : p.targetPtr with
  | none =>
      refine ⟨rfl, rfl, rfl, ?_, ?_⟩
      · intro t ht; simp at ht
      · intro h hh; simp at hh
  | some target =>
      dsimp only
      by_cases hcond : (target.system == sys && target.zoomFull
          && Scalar.blt target.cloak Scalar.one) = true
      · rw [if_pos hcond]
        simp only [Bool.and_eq_true, beq_iff_eq] at hcond
        by_cases hr : Scalar.blt (env.maskCollide target
            (Point.sub p.position target.position) p.velocity) Scalar.one = true
        · rw [if_pos hr]
          refine ⟨rfl, rfl, rfl, ?_, ?_⟩
          · intro t ht
            injection ht with ht; subst ht
            exact ⟨rfl, hcond.1.1, hcond.1.2, hcond.2⟩
          · intro h hh
            injection hh with hh; subst hh; rfl
        · rw [if_neg hr]
          refine ⟨rfl, rfl, rfl, ?_, ?_⟩
          · intro t ht
            injection ht with ht; subst ht
            exact ⟨rfl, hcond.1.1, hcond.1.2, hcond.2⟩
          · intro h hh; simp at hh
      · rw [if_neg hcond]
        refine ⟨rfl, rfl, rfl, ?_, ?_⟩
        · intro t ht; simp at ht
        · intro h hh; simp at hh

theorem collidePhase_phasing_dead_target (env : Env) (sc : List Ship) (sys : Nat)
    (p : Projectile) (g : Nat) (hgov : p.gov = some g)
    (hph : p.weapon.isPhasing = true) (htc : p.targetCached.isSome = true)
    (hbad : p.targetPtr = none ∨ ∃ t, p.targetPtr = some t ∧ t.system ≠ sys) :
    collidePhase env sc sys p =
      { closestHit := Scalar.one, hit := none, usedTrigger := false
        usedLine := false, usedAsteroids := false, maskTestedOn := none } := by
  simp only [collidePhase, hgov]
  rw [if_pos (by simp [hph, htc] : (p.weapon.isPhasing && p.targetCached.isSome) = true)]
  rcases hbad with hnone | ⟨t, hsome, hne⟩
  · rw [hnone]
  · rw [hsome]
    dsimp only
    rw [if_neg (by simp [hne])]

theorem doCollisions_am_of_miss (env : Env) (sc cc ham : List Ship) (sys : Nat)
    (p : Projectile) (g : Nat) (hgov : p.gov = some g)
    (hch : Scalar.blt (collidePhase env sc sys p).closestHit Scalar.one = false)
    (hms : p.missileStrength ≠ 0) :
    (doCollisions env sc cc ham sys p).amTried = (amPass env g p ham).1
    ∧ (doCollisions env sc cc ham sys p).amInterceptor = (amPass env g p ham).2
    ∧ (doCollisions env sc cc ham sys p).killed = (amPass env g p ham).2.isSome := by
  simp only [doCollisions]
  rw [if_neg (by simp [hch]), if_pos hms, hgov]
  exact ⟨rfl, rfl, rfl⟩

/-- A value at least 1 is not below 1. -/
theorem scalar_ble_one_absurd (c : Scalar)
    (h1 : Scalar.ble Scalar.one c = true) (h2 : Scalar.blt c Scalar.one = true) : False := by
  simp [Scalar.ble, Scalar.blt, Scalar.den, Scalar.one, Scalar.ofInt] at h1 h2
  omega

theorem find?_first {α : Type} (q : α → Bool) :
    ∀ (l : List α) (a : α), l.find? q = some a →
      ∃ pre post, l = pre ++ a :: post ∧ ∀ b ∈ pre, q b = false := by
  intro l
  induction l with
  | nil => intro a h; cases h
  | cons x xs ih =>
      intro a h
      simp only [List.find?] at h
      cases hqx : q x with
      | true =>
          rw [hqx] at h
          injection h with h; subst h
          exact ⟨[], xs, rfl, by simp⟩
      | false =>
          rw [hqx] at h
          obtain ⟨pre, post, hl, hpre⟩ := ih a h
          refine ⟨x :: pre, post, by rw [hl]; rfl, ?_⟩
          intro b hb
          rcases List.mem_cons.mp hb with rfl | hb
          · exact hqx
          · exact hpre b hb

end Collide

/-- C3: when a projectile detonates (closestHit < 1) and its weapon has a
nonzero blast radius, then: if the weapon is not safe, every ship of either
collision set (visible or cloaked, any faction) whose hit-circle intersects
the blast circle around the fractional impact point receives a damage
application; if the weapon is safe, such a ship receives one iff it is the
projectile's (cached) locked target or an enemy of the firing government; and
every typed event belongs to a damaged ship, so a skipped ship receives no
damage event. -/
theorem c3_blast_damage_events (env : Collide.Env) (sc cc ham : List Collide.Ship)
    (sys : Nat) (p : Collide.Projectile) (g : Nat)
    (hgov : p.gov = some g)
    (hbl : Scalar.isZero p.weapon.blastRadius = false)
    (o : Collide.Outcome) (ho : o = Collide.doCollisions env sc cc ham sys p)
    (hdet : o.exploded = true) :
    (p.weapon.isSafe = false →
      ∀ s, s ∈ sc ++ cc →
        Collide.hitCircleIntersects s (Collide.blastHitPos p o.closestHit)
          p.weapon.blastRadius = true →
        s ∈ o.damaged)
    ∧ (p.weapon.isSafe = true →
      ∀ s, s ∈ sc ++ cc →
        Collide.hitCircleIntersects s (Collide.blastHitPos p o.closestHit)
          p.weapon.blastRadius = true →
        (s ∈ o.damaged ↔ (p.targetCached = some s.uid ∨ env.isEnemyG g s.gov = true)))
    ∧ (∀ e ∈ o.events, e.2.1 ∈ o.damaged) := by
  subst ho
  rw [Collide.doCollisions_exploded env sc cc ham sys p] at hdet
  have hdam := Collide.doCollisions_damaged_blast env sc cc ham sys p hdet hbl
  have hclo := Collide.doCollisions_closestHit env sc cc ham sys p
  refine ⟨?_, ?_, Collide.doCollisions_events_damaged env sc cc ham sys p⟩
  · intro hsafe s hs hint
    rw [hclo] at hint
    rw [hdam]
    have hcond : (p.weapon.isSafe && !(p.targetCached == some s.uid)
        && !Collide.isEnemyOpt env p.gov s.gov) = false := by simp [hsafe]
    rcases List.mem_append.mp hs with hs | hs
    · exact List.mem_append_left _ ((Collide.mem_blastDamage env p _ _ s).mpr
        ⟨(Collide.mem_circleQuery _ _ _ s).mpr ⟨hs, hint⟩, hcond⟩)
    · exact List.mem_append_right _ ((Collide.mem_blastDamage env p _ _ s).mpr
        ⟨(Collide.mem_circleQuery _ _ _ s).mpr ⟨hs, hint⟩, hcond⟩)
  · intro hsafe s hs hint
    rw [hclo] at hint
    rw [hdam]
    constructor
    · intro hmem
      have hcond : (p.weapon.isSafe && !(p.targetCached == some s.uid)
          && !Collide.isEnemyOpt env p.gov s.gov) = false := by
        rcases List.mem_append.mp hmem with hmem | hmem
        · exact ((Collide.mem_blastDamage env p _ _ s).mp hmem).2
        · exact ((Collide.mem_blastDamage env p _ _ s).mp hmem).2
      by_cases hx : (p.targetCached == some s.uid) = true
      · exact Or.inl (by simpa using hx)
      · have hx' : (p.targetCached == some s.uid) = false := Bool.eq_false_iff.mpr hx
        rw [hsafe, hx'] at hcond
        simp [Collide.isEnemyOpt, hgov] at hcond
        exact Or.inr hcond
    · intro hct
      have hcond : (p.weapon.isSafe && !(p.targetCached == some s.uid)
          && !Collide.isEnemyOpt env p.gov s.gov) = false := by
        rcases hct with hc | hc
        · simp [hc]
        · simp [Collide.isEnemyOpt, hgov, hc]
      rcases List.mem_append.mp hs with hs | hs
      · exact List.mem_append_left _ ((Collide.mem_blastDamage env p _ _ s).mpr
          ⟨(Collide.mem_circleQuery _ _ _ s).mpr ⟨hs, hint⟩, hcond⟩)
      · exact List.mem_append_right _ ((Collide.mem_blastDamage env p _ _ s).mpr
          ⟨(Collide.mem_circleQuery _ _ _ s).mpr ⟨hs, hint⟩, hcond⟩)

theorem c3_blast_damage_events_witness :
    c3Visible ∈ (Collide.doCollisions c3Env [c3Visible] [c3Cloaked] [] 0 c3Proj).damaged
    ∧ c3Cloaked ∈ (Collide.doCollisions c3Env [c3Visible] [c3Cloaked] [] 0 c3Proj).damaged :=
  have h := c3_blast_damage_events c3Env [c3Visible] [c3Cloaked] [] 0 c3Proj 3 rfl
    (by decide) _ rfl (by decide)
  ⟨h.1 (by decide) c3Visible (by decide) (by decide),
   h.1 (by decide) c3Cloaked (by decide) (by decide)⟩

/-- C7: a projectile with a government whose weapon is phasing and which has a
(cached) locked target never consults the trigger-radius circle query, the
directed-segment query or the asteroid field; its mask test runs only against
the locked target, and only when that target is live, in the player's system,
at full zoom and not fully cloaked; and the only ship it can ever hit is the
locked target. -/
theorem c7_phasing_only_locked_target (env : Collide.Env)
    (sc cc ham : List Collide.Ship) (sys : Nat) (p : Collide.Projectile) (g : Nat)
    (hgov : p.gov = some g) (hph : p.weapon.isPhasing = true)
    (htc : p.targetCached.isSome = true)
    (o : Collide.Outcome) (ho : o = Collide.doCollisions env sc cc ham sys p) :
    o.usedTrigger = false ∧ o.usedLine = false ∧ o.usedAsteroids = false
    ∧ (∀ t, o.maskTestedOn = some t →
        p.targetPtr = some t ∧ t.system = sys ∧ t.zoomFull = true
          ∧ Scalar.blt t.cloak Scalar.one = true)
    ∧ (∀ h, o.hit = some h → p.targetPtr = some h) := by
  subst ho
  obtain ⟨h1, h2, h3, h4, h5⟩ :=
    Collide.collidePhase_phasing_fields env sc sys p g hgov hph htc
  rw [Collide.doCollisions_usedTrigger env sc cc ham sys p,
    Collide.doCollisions_usedLine env sc cc ham sys p,
    Collide.doCollisions_usedAsteroids env sc cc ham sys p,
    Collide.doCollisions_maskTestedOn env sc cc ham sys p]
  refine ⟨h1, h2, h3, h4, ?_⟩
  intro h hh
  rw [Collide.doCollisions_hit env sc cc ham sys p] at hh
  exact h5 h hh

theorem c7_phasing_only_locked_target_witness :
    (Collide.doCollisions c7Env [c7Target] [] [] 0 c7Proj).usedTrigger = false
    ∧ (Collide.doCollisions c7Env [c7Target] [] [] 0 c7Proj).usedLine = false
    ∧ (Collide.doCollisions c7Env [c7Target] [] [] 0 c7Proj).usedAsteroids = false
    ∧ (c7Proj.targetPtr = some c7Target ∧ c7Target.system = 0
        ∧ c7Target.zoomFull = true ∧ Scalar.blt c7Target.cloak Scalar.one = true)
    ∧ c7Proj.targetPtr = some c7Target :=
  have h := c7_phasing_only_locked_target c7Env [c7Target] [] [] 0 c7Proj 3
    rfl rfl rfl _ rfl
  ⟨h.1, h.2.1, h.2.2.1, h.2.2.2.1 c7Target (by decide), h.2.2.2.2 c7Target (by decide)⟩

/-- C9: a projectile with no government resolves as an explosion at fraction 0
with no hit ship; consequently DoGrudge is only ever invoked with a present
attacker government; and a phasing projectile whose locked reference is dead
or whose target has left the player's system performs no mask test and hits
nothing, a silent no-op. -/
theorem c9_optional_references_guarded (env : Collide.Env)
    (sc cc ham : List Collide.Ship) (sys : Nat) (p : Collide.Projectile)
    (o : Collide.Outcome) (ho : o = Collide.doCollisions env sc cc ham sys p) :
    (p.gov = none →
      o.closestHit = Scalar.zero ∧ o.hit = none ∧ o.exploded = true
        ∧ o.grudgeTarget = none)
    ∧ (∀ h gq, o.grudgeTarget = some (h, gq) → gq.isSome = true)
    ∧ (∀ g, p.gov = some g → p.weapon.isPhasing = true → p.targetCached.isSome = true →
        (p.targetPtr = none ∨ ∃ t, p.targetPtr = some t ∧ t.system ≠ sys) →
        o.exploded = false ∧ o.hit = none ∧ o.damaged = [] ∧ o.maskTestedOn = none) := by
  subst ho
  refine ⟨?_, ?_, ?_⟩
  · intro hgov
    have hcp := Collide.collidePhase_noGov env sc sys p hgov
    refine ⟨?_, ?_, ?_, ?_⟩
    · rw [Collide.doCollisions_closestHit env sc cc ham sys p, hcp]
    · rw [Collide.doCollisions_hit env sc cc ham sys p, hcp]
    · rw [Collide.doCollisions_exploded env sc cc ham sys p, hcp]
      decide
    · rw [Collide.doCollisions_grudgeTarget env sc cc ham sys p, hcp]
      simp
  · intro h gq hgt
    rw [Collide.doCollisions_grudgeTarget env sc cc ham sys p] at hgt
    by_cases hch : Scalar.blt (Collide.collidePhase env sc sys p).closestHit
        Scalar.one = true
    · rw [if_pos hch] at hgt
      obtain ⟨a, ha, hpair⟩ := Option.map_eq_some'.mp hgt
      have hpg : p.gov = gq := congrArg Prod.snd hpair
      rw [← hpg]
      exact Collide.collidePhase_hit_gov env sc sys p a ha
    · rw [if_neg hch] at hgt
      cases hgt
  · intro g hgov hph htc hbad
    have hcp := Collide.collidePhase_phasing_dead_target env sc sys p g hgov hph htc hbad
    have hch : Scalar.blt (Collide.collidePhase env sc sys p).closestHit
        Scalar.one = false := by rw [hcp]; decide
    refine ⟨?_, ?_, ?_, ?_⟩
    · rw [Collide.doCollisions_exploded env sc cc ham sys p, hcp]
      decide
    · rw [Collide.doCollisions_hit env sc cc ham sys p, hcp]
    · exact Collide.doCollisions_damaged_noDetonate env sc cc ham sys p hch
    · rw [Collide.doCollisions_maskTestedOn env sc cc ham sys p, hcp]

theorem c9_optional_references_guarded_witness :
    (Collide.doCollisions c3Env [c3Visible] [] [] 0 c9Explosion).closestHit = Scalar.zero
    ∧ (Collide.doCollisions c3Env [c3Visible] [] [] 0 c9Explosion).hit = none
    ∧ (Collide.doCollisions c3Env [c3Visible] [] [] 0 c9Explosion).exploded = true
    ∧ (Collide.doCollisions c3Env [c3Visible] [] [] 0 c9Explosion).grudgeTarget = none :=
  (c9_optional_references_guarded c3Env [c3Visible] [] [] 0 c9Explosion _ rfl).1 rfl

/-- C4 (amended): if a projectile carrying missile strength hits nothing this
step, the anti-missile-ready ships are tried in their recorded (entity-store)
order; a ship is eligible only if it is the cached locked target or an enemy
of the projectile's government; the first eligible ship whose FireAntiMissile
call succeeds intercepts; and the projectile is destroyed iff some eligible
ready ship's interception attempt succeeds — in particular, with exactly one
eligible ready ship it is destroyed when that ship's attempt succeeds (not
unconditionally). -/
theorem c4_anti_missile_first_eligible (env : Collide.Env)
    (sc cc ham : List Collide.Ship) (sys : Nat) (p : Collide.Projectile) (g : Nat)
    (hgov : p.gov = some g) (hms : p.missileStrength ≠ 0)
    (o : Collide.Outcome) (ho : o = Collide.doCollisions env sc cc ham sys p)
    (hmiss : o.exploded = false) :
    o.amInterceptor = (ham.filter fun s =>
        p.targetCached == some s.uid || env.isEnemyG g s.gov).find?
          (fun s => env.fireAntiMissile s p)
    ∧ (o.killed = true ↔ ∃ s ∈ ham.filter (fun s =>
        p.targetCached == some s.uid || env.isEnemyG g s.gov),
          env.fireAntiMissile s p = true)
    ∧ (∀ s ∈ o.amTried, (p.targetCached == some s.uid || env.isEnemyG g s.gov) = true)
    ∧ (∀ s, ham.filter (fun s =>
        p.targetCached == some s.uid || env.isEnemyG g s.gov) = [s] →
        env.fireAntiMissile s p = true → o.killed = true) := by
  subst ho
  rw [Collide.doCollisions_exploded env sc cc ham sys p] at hmiss
  obtain ⟨ht, hi, hk⟩ :=
    Collide.doCollisions_am_of_miss env sc cc ham sys p g hgov hmiss hms
  refine ⟨?_, ?_, ?_, ?_⟩
  · rw [hi, Collide.amPass_interceptor]
  · rw [hk, Collide.amPass_interceptor]
    simp only [List.find?_isSome, List.mem_filter, Bool.or_eq_true, beq_iff_eq]
  · intro s hs
    rw [ht] at hs
    exact Collide.amPass_tried_eligible env g p ham s hs
  · intro s hflt hfire
    rw [hk, Collide.amPass_interceptor, hflt]
    simp [List.find?, hfire]

/-- C4 counterexample: exactly one eligible anti-missile-ready ship exists this
step for a homing projectile that hits nothing, yet the projectile is NOT
destroyed, because that ship's FireAntiMissile attempt fails (in the engine
the attempt can fail for range or chance reasons; Engine.cpp only destroys
the projectile when FireAntiMissile returns true). -/
theorem c4_counterexample :
    ([c4Ship].filter fun s =>
        c4Proj.targetCached == some s.uid || c4Env.isEnemyG 3 s.gov) = [c4Ship]
    ∧ c4Proj.missileStrength ≠ 0
    ∧ (Collide.doCollisions c4Env [] [] [c4Ship] 0 c4Proj).exploded = false
    ∧ (Collide.doCollisions c4Env [] [] [c4Ship] 0 c4Proj).amTried = [c4Ship]
    ∧ (Collide.doCollisions c4Env [] [] [c4Ship] 0 c4Proj).killed = false := by
  decide

theorem c4_anti_missile_first_eligible_witness :
    (Collide.doCollisions c4EnvHit [] [] [c4Ship] 0 c4Proj).killed = true :=
  (c4_anti_missile_first_eligible c4EnvHit [] [] [c4Ship] 0 c4Proj 3 rfl
    (by decide) _ rfl (by decide)).2.2.2 c4Ship (by decide) rfl

/-- C10: a flotsam is collected by at most one ship per step, namely the first
body of the visible-collision-set circle query of radius 5 around it that can
act, is not the flotsam's source and has enough free cargo; if no queried ship
satisfies all three conditions nothing collects it; and a fully cloaked ship
(cloak at least 1) is never the collector because it is not in the visible
collision set. -/
theorem c10_flotsam_single_collector (ships : List Collide.Ship) (sys : Nat)
    (fl : Collide.Flotsam)
    (o : Option Collide.Ship)
    (ho : o = Collide.doCollection (Collide.fillCollisionSets ships sys).1 fl) :
    (∀ s, o = some s →
        (s.system = sys ∧ s.zoomFull = true ∧ Scalar.blt s.cloak Scalar.one = true)
        ∧ s ∈ Collide.circleQuery (Collide.fillCollisionSets ships sys).1
            fl.position (Scalar.ofInt 5)
        ∧ s.cannotAct = false
        ∧ fl.source ≠ some s.uid
        ∧ Scalar.ble fl.unitSize s.cargoFree = true
        ∧ ∃ pre post,
            Collide.circleQuery (Collide.fillCollisionSets ships sys).1
              fl.position (Scalar.ofInt 5) = pre ++ s :: post
            ∧ ∀ b ∈ pre, (!b.cannotAct && !(fl.source == some b.uid)
                && Scalar.ble fl.unitSize b.cargoFree) = false)
    ∧ (o = none ↔ ∀ s ∈ Collide.circleQuery (Collide.fillCollisionSets ships sys).1
          fl.position (Scalar.ofInt 5),
        (!s.cannotAct && !(fl.source == some s.uid)
          && Scalar.ble fl.unitSize s.cargoFree) = false)
    ∧ (∀ s, Scalar.ble Scalar.one s.cloak = true → o ≠ some s) := by
  subst ho
  have part1 : ∀ s,
      Collide.doCollection (Collide.fillCollisionSets ships sys).1 fl = some s →
      (s.system = sys ∧ s.zoomFull = true ∧ Scalar.blt s.cloak Scalar.one = true)
      ∧ s ∈ Collide.circleQuery (Collide.fillCollisionSets ships sys).1
          fl.position (Scalar.ofInt 5)
      ∧ s.cannotAct = false
      ∧ fl.source ≠ some s.uid
      ∧ Scalar.ble fl.unitSize s.cargoFree = true
      ∧ ∃ pre post,
          Collide.circleQuery (Collide.fillCollisionSets ships sys).1
            fl.position (Scalar.ofInt 5) = pre ++ s :: post
          ∧ ∀ b ∈ pre, (!b.cannotAct && !(fl.source == some b.uid)
              && Scalar.ble fl.unitSize b.cargoFree) = false := by
    intro s hs
    have hpred := List.find?_some hs
    have hmem := List.mem_of_find?_eq_some hs
    simp only [Bool.and_eq_true, Bool.not_eq_true'] at hpred
    have hvis := ((Collide.mem_circleQuery _ _ _ s).mp hmem).1
    have hconds := (List.mem_filter.mp hvis).2
    simp only [Bool.and_eq_true, beq_iff_eq] at hconds
    refine ⟨⟨hconds.1.1, hconds.1.2, hconds.2⟩, hmem, hpred.1.1, ?_, hpred.2, ?_⟩
    · intro hsrc
      have hbe := hpred.1.2
      rw [hsrc] at hbe
      simp at hbe
    · exact Collide.find?_first _ _ s hs
  refine ⟨part1, ?_, ?_⟩
  · constructor
    · intro hnone s hs
      exact Bool.eq_false_iff.mpr (List.find?_eq_none.mp hnone s hs)
    · intro hall
      apply List.find?_eq_none.mpr
      intro s hs
      rw [hall s hs]
      simp
  · intro s hcl hsome
    obtain ⟨⟨_, _, hblt⟩, _⟩ := part1 s hsome
    exact Collide.scalar_ble_one_absurd s.cloak hcl hblt

theorem c10_flotsam_single_collector_witness :
    (c10Collector.system = 0 ∧ c10Collector.zoomFull = true
      ∧ Scalar.blt c10Collector.cloak Scalar.one = true)
    ∧ c10Collector ∈ Collide.circleQuery
        (Collide.fillCollisionSets [c10Collector] 0).1
        c10Flotsam.position (Scalar.ofInt 5)
    ∧ c10Collector.cannotAct = false
    ∧ c10Flotsam.source ≠ some c10Collector.uid
    ∧ Scalar.ble c10Flotsam.unitSize c10Collector.cargoFree = true :=
  have h := (c10_flotsam_single_collector [c10Collector] 0 c10Flotsam _ rfl).1
    c10Collector (by decide)
  ⟨h.1, h.2.1, h.2.2.1, h.2.2.2.1, h.2.2.2.2.1⟩

/-- C5 (amended): while the registered requester for attacking faction F is
alive, in the player's system and not disabled, no new request is raised for
F; while the global cooldown is nonzero no request is raised for any faction,
and a player attack never raises one; a qualifying attack raises a new
request when the entry is absent, or when the registered requester is alive
but disabled or out of the system — but not when it has been destroyed (an
expired weak reference returns early); raising registers the victim and sets
the cooldown to 120; and CalculateStep decrements the cooldown once per
step. -/
theorem c5_grudge_lifecycle (env : Grudge.GrudgeEnv) (ships : List Collide.Ship)
    (sys : Nat) (randReal : Scalar) (grudge : List (Nat × Option Nat))
    (grudgeTime : Nat) (target : Collide.Ship) (attacker : Nat) :
    (∀ uid S', env.isPlayer attacker = false →
        Grudge.lookupGrudge grudge attacker = some (some uid) →
        env.lock uid = some S' → S'.system = sys → S'.disabled = false →
        (Grudge.doGrudge env ships sys randReal grudge grudgeTime
          target attacker).raised = false)
    ∧ (env.isPlayer attacker = false → grudgeTime ≠ 0 →
        (Grudge.doGrudge env ships sys randReal grudge grudgeTime
          target attacker).raised = false)
    ∧ (env.isPlayer attacker = true →
        (Grudge.doGrudge env ships sys randReal grudge grudgeTime
          target attacker).raised = false)
    ∧ (env.isPlayer attacker = false → grudgeTime = 0 →
        (Grudge.lookupGrudge grudge attacker = none
          ∨ ∃ uid S', Grudge.lookupGrudge grudge attacker = some (some uid)
              ∧ env.lock uid = some S'
              ∧ (S'.disabled = true ∨ S'.system ≠ sys)) →
        env.isPlayer target.gov = false →
        env.isEnemyOfPlayer attacker = true →
        env.isEnemyOfPlayer target.gov = false →
        target.isMute = false →
        env.languageEmpty target.gov = true →
        Scalar.ble (Grudge.attackerStrength ships attacker target.uid)
          (Grudge.strengthOf target) = false →
        Scalar.blt (Scalar.sub (Grudge.attackerStrength ships attacker target.uid)
            (Grudge.strengthOf target))
          (Scalar.mul (Scalar.mul randReal (Scalar.ofInt 10))
            (Grudge.strengthOf target)) = false →
        Grudge.doGrudge env ships sys randReal grudge grudgeTime target attacker
          = { grudge := (attacker, some target.uid) :: grudge, grudgeTime := 120
              raised := true, thanked := false })
    ∧ (∀ (plan : Pipeline.StepPlan) (w : Pipeline.World),
        (Pipeline.calculateStep plan w).world.grudgeTime = w.grudgeTime - 1) := by
  refine ⟨?_, ?_, ?_, ?_, ?_⟩
  · intro uid S' hnp hlk hlock hsys hdis
    simp only [Grudge.doGrudge]
    rw [if_neg (by simp [hnp])]
    by_cases hgt : grudgeTime ≠ 0
    · rw [if_pos hgt]
      rfl
    · rw [if_neg hgt, hlk]
      dsimp only
      rw [hlock]
      dsimp only
      rw [if_pos (by simp [hsys, hdis])]
      rfl
  · intro hnp hgt
    simp only [Grudge.doGrudge]
    rw [if_neg (by simp [hnp]), if_pos hgt]
    rfl
  · intro hp
    simp only [Grudge.doGrudge]
    rw [if_pos hp]
    split
    · split <;> rfl
    · rfl
  · intro hnp hgt0 hentry hq1 hq2 hq3 hq4 hq5 hble hblt
    simp only [Grudge.doGrudge]
    rw [if_neg (by simp [hnp]), if_neg (by simp [hgt0])]
    rcases hentry with hlk | ⟨uid, S', hlk, hlock, hbad⟩
    · rw [hlk]
      dsimp only
      rw [if_neg (by simp), if_neg (by simp [hq1]), if_neg (by simp [hq2]),
        if_neg (by simp [hq3]), if_neg (by simp [hq4]), if_neg (by simp [hq5]),
        if_neg (by simp [hble]), if_neg (by simp [hblt])]
    · rw [hlk]
      dsimp only
      rw [hlock]
      dsimp only
      have hb : ¬((S'.system == sys && !S'.disabled) = true) := by
        rcases hbad with hd | hs
        · simp [hd]
        · simp [hs]
      rw [if_neg hb,
        if_neg (by simp [hq1]), if_neg (by simp [hq2]),
        if_neg (by simp [hq3]), if_neg (by simp [hq4]), if_neg (by simp [hq5]),
        if_neg (by simp [hble]), if_neg (by simp [hblt])]
  · intro plan w
    rfl

/-- C5 counterexample: the registered requester (ship 9) for faction 5 has
been destroyed — its weak reference is expired — and an otherwise fully
qualifying attack (it raises a request when the table has no entry) raises
NO new request: Engine::DoGrudge returns when the stored weak pointer fails
to lock.  This refutes "once S is destroyed ... a subsequent qualifying
attack may raise a new request". -/
theorem c5_counterexample :
    Grudge.lookupGrudge [(5, some 9)] 5 = some (some 9)
    ∧ c5Env.lock 9 = none
    ∧ (Grudge.doGrudge c5Env [c5Attacker] 0 Scalar.zero [(5, some 9)] 0
        c5Target 5).raised = false
    ∧ (Grudge.doGrudge c5Env [c5Attacker] 0 Scalar.zero [] 0
        c5Target 5).raised = true := by
  decide

theorem c5_grudge_lifecycle_witness :
    Grudge.doGrudge c5Env [c5Attacker] 0 Scalar.zero [] 0 c5Target 5
      = { grudge := [(5, some 1)], grudgeTime := 120
          raised := true, thanked := false } :=
  (c5_grudge_lifecycle c5Env [c5Attacker] 0 Scalar.zero [] 0 c5Target 5).2.2.2.1
    (by decide) rfl (Or.inl (by decide)) (by decide) (by decide) (by decide)
    (by decide) (by decide) (by decide) (by decide)

namespace Spawn

theorem pickPerson_mem (d : Int) (l : List PersonDef) (i : Nat)
    (h : pickPerson d l = some i) : i ∈ l.map PersonDef.pid := by
  induction l generalizing d with
  | nil => cases h
  | cons q rest ih =>
      simp only [pickPerson] at h
      split at h
      · injection h with h
        subst h
        simp
      · simp only [List.map_cons, List.mem_cons]
        exact Or.inr (ih _ h)

theorem pickPerson_isSome (l : List PersonDef) : ∀ d : Nat,
    (pickPerson (d : Int) l).isSome = true ↔ d < totalFreq l := by
  induction l with
  | nil => intro d; simp [pickPerson, totalFreq]
  | cons q rest ih =>
      intro d
      simp only [pickPerson, totalFreq, List.map_cons, List.sum_cons]
      by_cases hd : (d : Int) - q.freq < 0
      · rw [if_pos hd]
        simp only [Option.isSome_some, true_iff]
        omega
      · rw [if_neg hd]
        have hcast : (d : Int) - q.freq = ((d - q.freq : Nat) : Int) := by omega
        rw [hcast, ih]
        simp only [totalFreq]
        omega

theorem pickPerson_weighted : ∀ (l : List PersonDef),
    (l.map PersonDef.pid).Nodup → ∀ q ∈ l, ∃ off : Nat, ∀ d : Nat,
      (pickPerson (d : Int) l = some q.pid ↔ off ≤ d ∧ d < off + q.freq) := by
  intro l
  induction l with
  | nil => intro _ q hq; cases hq
  | cons p rest ih =>
      intro hnd q hq
      have hhead : p.pid ∉ rest.map PersonDef.pid := (List.nodup_cons.mp hnd).1
      rcases List.mem_cons.mp hq with rfl | hq
      · refine ⟨0, fun d => ?_⟩
        simp only [pickPerson]
        by_cases hd : (d : Int) - q.freq < 0
        · rw [if_pos hd]
          constructor
          · intro _
            omega
          · intro _
            rfl
        · rw [if_neg hd]
          constructor
          · intro hpk
            exact absurd (pickPerson_mem _ _ _ hpk) hhead
          · rintro ⟨_, hlt⟩
            omega
      · obtain ⟨off, hoff⟩ := ih (List.nodup_cons.mp hnd).2 q hq
        refine ⟨p.freq + off, fun d => ?_⟩
        simp only [pickPerson]
        by_cases hd : (d : Int) - p.freq < 0
        · rw [if_pos hd]
          have hne : p.pid ≠ q.pid := by
            intro he
            exact hhead (he ▸ List.mem_map_of_mem PersonDef.pid hq)
          constructor
          · intro h
            injection h with h
            exact absurd h hne
          · rintro ⟨hle, _⟩
            omega
        · rw [if_neg hd]
          have hcast : (d : Int) - p.freq = ((d - p.freq : Nat) : Int) := by omega
          rw [hcast, hoff (d - p.freq)]
          omega

theorem spawnPersons_isSome_iff (persons : List PersonDef) (d : Nat)
    (hne : totalFreq persons ≠ 0) :
    ((spawnPersons 0 false d persons).isSome = true) ↔ d < totalFreq persons := by
  simp only [spawnPersons]
  rw [if_neg (by simp), if_neg hne]
  exact pickPerson_isSome persons d

/-- Out of the `totalFreq + 1000` equally likely selection draws, exactly
`totalFreq` produce a spawn: the conditional spawn chance is
totalFreq / (totalFreq + 1000). -/
theorem spawnPersons_rate (persons : List PersonDef)
    (hne : totalFreq persons ≠ 0) :
    ((Finset.range (totalFreq persons + 1000)).filter
      (fun d => (spawnPersons 0 false d persons).isSome = true)).card
      = totalFreq persons := by
  have hset : ((Finset.range (totalFreq persons + 1000)).filter
      (fun d => (spawnPersons 0 false d persons).isSome = true))
      = Finset.range (totalFreq persons) := by
    ext d
    simp only [Finset.mem_filter, Finset.mem_range]
    constructor
    · rintro ⟨_, h2⟩
      exact (spawnPersons_isSome_iff persons d hne).mp h2
    · intro h
      exact ⟨by omega, (spawnPersons_isSome_iff persons d hne).mpr h⟩
  rw [hset, Finset.card_range]

end Spawn

/-- C6: a fleet definition of the active system whose period draw succeeds is
placed iff it has a government and it is not throttled; in particular a
reinforcement fleet for faction g is never placed in a step where g's present
enemy strength is nonzero and its present allied strength exceeds twice that
enemy strength. -/
theorem c6_reinforcement_throttling (draws : Spawn.FleetDef → Bool)
    (eS aS : Nat → Int) (fleets : List Spawn.FleetDef) (f : Spawn.FleetDef)
    (g : Nat) (hgov : f.gov = some g) :
    (f ∈ Spawn.spawnFleets draws eS aS fleets ↔
      f ∈ fleets ∧ draws f = true ∧ ¬(eS g ≠ 0 ∧ 2 * eS g < aS g))
    ∧ (f ∈ Spawn.spawnFleets draws eS aS fleets → eS g ≠ 0 → aS g ≤ 2 * eS g) := by
  have hchar : f ∈ Spawn.spawnFleets draws eS aS fleets ↔
      f ∈ fleets ∧ draws f = true ∧ ¬(eS g ≠ 0 ∧ 2 * eS g < aS g) := by
    rw [Spawn.spawnFleets, List.mem_filter, Spawn.fleetPlaced, hgov]
    simp only [Bool.and_eq_true, Bool.not_eq_true', Bool.and_eq_false_iff]
    constructor
    · rintro ⟨hm, hd, hc⟩
      refine ⟨hm, hd, ?_⟩
      rintro ⟨hne, hgt⟩
      rcases hc with hc | hc
      · exact hne (by simpa using hc)
      · exact absurd hgt (by simpa using hc)
    · rintro ⟨hm, hd, hc⟩
      refine ⟨hm, hd, ?_⟩
      by_cases hne : eS g = 0
      · exact Or.inl (by simp [hne])
      · refine Or.inr ?_
        have : ¬(2 * eS g < aS g) := fun hgt => hc ⟨hne, hgt⟩
        simpa using this
  refine ⟨hchar, ?_⟩
  intro hmem hne
  have := (hchar.mp hmem).2.2
  omega

theorem c6_reinforcement_throttling_witness :
    c6Fleet ∈ Spawn.spawnFleets (fun _ => true) (fun _ => 3) (fun _ => 5) [c6Fleet]
    ∧ (5 : Int) ≤ 2 * 3 :=
  have h := c6_reinforcement_throttling (fun _ => true) (fun _ => 3) (fun _ => 5)
    [c6Fleet] c6Fleet 1 rfl
  have hmem : c6Fleet ∈ Spawn.spawnFleets (fun _ => true) (fun _ => 3)
      (fun _ => 5) [c6Fleet] :=
    h.1.mpr ⟨by decide, rfl, by decide⟩
  ⟨hmem, h.2 hmem (by decide)⟩

/-- C8 (amended): the rare-encounter spawner is gated by the long-period draw
and the links check; with no eligible definitions nothing spawns; when the
gate fires, a named definition is chosen by weighted random choice — each
definition owns a contiguous block of exactly `freq` of the `totalFreq + 1000`
equally likely selection draws — so given the gate, some encounter spawns with
chance totalFreq / (totalFreq + 1000), a rate that grows as more eligible
definitions are added (it is not constant). -/
theorem c8_person_weighted_choice (persons : List Spawn.PersonDef) :
    (∀ (gateDraw : Nat) (linksEmpty : Bool) (choiceDraw : Nat),
      (gateDraw ≠ 0 ∨ linksEmpty = true) →
      Spawn.spawnPersons gateDraw linksEmpty choiceDraw persons = none)
    ∧ (∀ choiceDraw, Spawn.totalFreq persons = 0 →
        Spawn.spawnPersons 0 false choiceDraw persons = none)
    ∧ ((persons.map Spawn.PersonDef.pid).Nodup → Spawn.totalFreq persons ≠ 0 →
        ∀ q ∈ persons, ∃ off : Nat, ∀ d : Nat,
          (Spawn.spawnPersons 0 false d persons = some q.pid ↔
            off ≤ d ∧ d < off + q.freq))
    ∧ (Spawn.totalFreq persons ≠ 0 →
        ((Finset.range (Spawn.totalFreq persons + 1000)).filter
          (fun d => (Spawn.spawnPersons 0 false d persons).isSome = true)).card
          = Spawn.totalFreq persons) := by
  refine ⟨?_, ?_, ?_, Spawn.spawnPersons_rate persons⟩
  · intro gateDraw linksEmpty choiceDraw hgate
    simp only [Spawn.spawnPersons]
    rw [if_pos ?_]
    rcases hgate with h | h
    · simp [h]
    · simp [h]
  · intro choiceDraw hz
    simp only [Spawn.spawnPersons]
    rw [if_neg (by simp), if_pos hz]
  · intro hnd hne q hq
    obtain ⟨off, hoff⟩ := Spawn.pickPerson_weighted persons hnd q hq
    refine ⟨off, fun d => ?_⟩
    simp only [Spawn.spawnPersons]
    rw [if_neg (by simp), if_neg hne]
    exact hoff d

/-- C8 counterexample: adding an eligible definition changes the overall
per-step spawn chance.  With one definition of frequency 1000 the conditional
spawn chance is 1000/2000; adding a second definition of frequency 1000 makes
it 2000/3000 — the two ratios differ (cross-multiplied), refuting "adding
more eligible definitions does not change the overall per-step probability
that some rare encounter is spawned". -/
theorem c8_counterexample :
    ((Finset.range (Spawn.totalFreq c8P1 + 1000)).filter
      (fun d => (Spawn.spawnPersons 0 false d c8P1).isSome = true)).card
        * (Spawn.totalFreq c8P2 + 1000)
    ≠ ((Finset.range (Spawn.totalFreq c8P2 + 1000)).filter
      (fun d => (Spawn.spawnPersons 0 false d c8P2).isSome = true)).card
        * (Spawn.totalFreq c8P1 + 1000) := by
  rw [Spawn.spawnPersons_rate c8P1 (by decide), Spawn.spawnPersons_rate c8P2 (by decide)]
  decide

theorem c8_person_weighted_choice_witness :
    ((Finset.range (Spawn.totalFreq c8P2 + 1000)).filter
      (fun d => (Spawn.spawnPersons 0 false d c8P2).isSome = true)).card
      = Spawn.totalFreq c8P2 :=
  (c8_person_weighted_choice c8P2).2.2.2 (by decide)

end EndlessSky
